import Mathlib

/-!
Verification of the SSPI core (sspi-rs): a shallow embedding of the error
taxonomy, security-buffer lookup, package enumeration, KRB-ERROR mapping and
KDC configuration from `src/src/sspi.rs`, `src/src/sspi/kerberos/config.rs`
and `src/src/sspi/builders/accept_sec_context.rs`, with theorems settling the
specified behaviours.
-/

/-- Embedding of `ErrorKind` from `src/src/sspi.rs`: the kind of an
SSPI-related error, one constructor per Rust variant. -/
inductive ErrorKind where
  | Unknown
  | InsufficientMemory
  | InvalidHandle
  | UnsupportedFunction
  | TargetUnknown
  | InternalError
  | SecurityPackageNotFound
  | NotOwned
  | CannotInstall
  | InvalidToken
  | CannotPack
  | OperationNotSupported
  | NoImpersonation
  | LogonDenied
  | UnknownCredentials
  | NoCredentials
  | MessageAltered
  | OutOfSequence
  | NoAuthenticatingAuthority
  | BadPackageId
  | ContextExpired
  | IncompleteMessage
  | IncompleteCredentials
  | BufferTooSmall
  | WrongPrincipalName
  | TimeSkew
  | UntrustedRoot
  | IllegalMessage
  | CertificateUnknown
  | CertificateExpired
  | EncryptFailure
  | DecryptFailure
  | AlgorithmMismatch
  | SecurityQosFailed
  | UnfinishedContextDeleted
  | NoTgtReply
  | NoIpAddress
  | WrongCredentialHandle
  | CryptoSystemInvalid
  | MaxReferralsExceeded
  | MustBeKdc
  | StrongCryptoNotSupported
  | TooManyPrincipals
  | NoPaData
  | PkInitNameMismatch
  | SmartCardLogonRequired
  | ShutdownInProgress
  | KdcInvalidRequest
  | KdcUnknownEType
  | KdcUnknownEType2
  | UnsupportedPreAuth
  | DelegationRequired
  | BadBindings
  | MultipleAccounts
  | NoKerdKey
  | CertWrongUsage
  | DowngradeDetected
  | SmartCardCertificateRevoked
  | IssuingCAUntrusted
  | RevocationOffline
  | PkInitClientFailure
  | SmartCardCertExpired
  | NoS4uProtSupport
  | CrossRealmDelegationFailure
  | RevocationOfflineKdc
  | IssuingCaUntrustedKdc
  | KdcCertExpired
  | KdcCertRevoked
  | InvalidParameter
  | DelegationPolicy
  | PolicyNtlmOnly
  | NoContext
  | Pku2uCertFailure
  | MutualAuthFailed
  | OnlyHttpsAllowed
  | ApplicationProtocolMismatch
  deriving DecidableEq, Repr

/-- Embedding of the `repr(u32)` discriminant values attached to each
`ErrorKind` variant in `src/src/sspi.rs`. -/
def ErrorKind.value : ErrorKind → Nat
  | .Unknown => 0
  | .InsufficientMemory => 0x80090300
  | .InvalidHandle => 0x80090301
  | .UnsupportedFunction => 0x80090302
  | .TargetUnknown => 0x80090303
  | .InternalError => 0x80090304
  | .SecurityPackageNotFound => 0x80090305
  | .NotOwned => 0x80090306
  | .CannotInstall => 0x80090307
  | .InvalidToken => 0x80090308
  | .CannotPack => 0x80090309
  | .OperationNotSupported => 0x8009030A
  | .NoImpersonation => 0x8009030B
  | .LogonDenied => 0x8009030C
  | .UnknownCredentials => 0x8009030D
  | .NoCredentials => 0x8009030E
  | .MessageAltered => 0x8009030F
  | .OutOfSequence => 0x80090310
  | .NoAuthenticatingAuthority => 0x80090311
  | .BadPackageId => 0x80090316
  | .ContextExpired => 0x80090317
  | .IncompleteMessage => 0x80090318
  | .IncompleteCredentials => 0x80090320
  | .BufferTooSmall => 0x80090321
  | .WrongPrincipalName => 0x80090322
  | .TimeSkew => 0x80090324
  | .UntrustedRoot => 0x80090325
  | .IllegalMessage => 0x80090326
  | .CertificateUnknown => 0x80090327
  | .CertificateExpired => 0x80090328
  | .EncryptFailure => 0x80090329
  | .DecryptFailure => 0x80090330
  | .AlgorithmMismatch => 0x80090331
  | .SecurityQosFailed => 0x80090332
  | .UnfinishedContextDeleted => 0x80090333
  | .NoTgtReply => 0x80090334
  | .NoIpAddress => 0x80090335
  | .WrongCredentialHandle => 0x80090336
  | .CryptoSystemInvalid => 0x80090337
  | .MaxReferralsExceeded => 0x80090338
  | .MustBeKdc => 0x80090339
  | .StrongCryptoNotSupported => 0x8009033A
  | .TooManyPrincipals => 0x8009033B
  | .NoPaData => 0x8009033C
  | .PkInitNameMismatch => 0x8009033D
  | .SmartCardLogonRequired => 0x8009033E
  | .ShutdownInProgress => 0x8009033F
  | .KdcInvalidRequest => 0x80090340
  | .KdcUnknownEType => 0x80090341
  | .KdcUnknownEType2 => 0x80090342
  | .UnsupportedPreAuth => 0x80090343
  | .DelegationRequired => 0x80090345
  | .BadBindings => 0x80090346
  | .MultipleAccounts => 0x80090347
  | .NoKerdKey => 0x80090348
  | .CertWrongUsage => 0x80090349
  | .DowngradeDetected => 0x80090350
  | .SmartCardCertificateRevoked => 0x80090351
  | .IssuingCAUntrusted => 0x80090352
  | .RevocationOffline => 0x80090353
  | .PkInitClientFailure => 0x80090354
  | .SmartCardCertExpired => 0x80090355
  | .NoS4uProtSupport => 0x80090356
  | .CrossRealmDelegationFailure => 0x80090357
  | .RevocationOfflineKdc => 0x80090358
  | .IssuingCaUntrustedKdc => 0x80090359
  | .KdcCertExpired => 0x8009035A
  | .KdcCertRevoked => 0x8009035B
  | .InvalidParameter => 0x8009035D
  | .DelegationPolicy => 0x8009035E
  | .PolicyNtlmOnly => 0x8009035F
  | .NoContext => 0x80090361
  | .Pku2uCertFailure => 0x80090362
  | .MutualAuthFailed => 0x80090363
  | .OnlyHttpsAllowed => 0x80090365
  | .ApplicationProtocolMismatch => 0x80090367

/-- Embedding of `SecurityStatus` from `src/src/sspi.rs`: the success status
of an SSPI-related operation. -/
inductive SecurityStatus where
  | Ok
  | ContinueNeeded
  | CompleteNeeded
  | CompleteAndContinue
  | LocalLogon
  | ContextExpired
  | IncompleteCredentials
  | Renegotiate
  | NoLsaContext
  deriving DecidableEq, Repr

/-- Embedding of the discriminant values of `SecurityStatus` in
`src/src/sspi.rs`. -/
def SecurityStatus.value : SecurityStatus → Nat
  | .Ok => 0
  | .ContinueNeeded => 0x00090312
  | .CompleteNeeded => 0x00090313
  | .CompleteAndContinue => 0x00090314
  | .LocalLogon => 0x00090315
  | .ContextExpired => 0x00090317
  | .IncompleteCredentials => 0x00090320
  | .Renegotiate => 0x00090321
  | .NoLsaContext => 0x00090323

/-- Embedding of `Error` from `src/src/sspi.rs`: holds the `ErrorKind` and the
description of the SSPI-related error. -/
structure Error where
  error_type : ErrorKind
  description : String
  deriving DecidableEq, Repr

/-- Claim C7: the numeric values of the status and error enumerations equal
the well-known SSPI numbers: `Ok = 0`, `ContinueNeeded = 0x00090312`,
`CompleteNeeded = 0x00090313`, `CompleteAndContinue = 0x00090314`; example
error kinds carry their documented HRESULTs, and every `ErrorKind` variant
other than `Unknown` has a value in the range `0x80090300 ..= 0x80090367`. -/
theorem c7_status_and_error_values :
    (SecurityStatus.Ok.value = 0x00000000 ∧
      SecurityStatus.ContinueNeeded.value = 0x00090312 ∧
      SecurityStatus.CompleteNeeded.value = 0x00090313 ∧
      SecurityStatus.CompleteAndContinue.value = 0x00090314) ∧
    (ErrorKind.InvalidToken.value = 0x80090308 ∧
      ErrorKind.MessageAltered.value = 0x8009030F ∧
      ErrorKind.OutOfSequence.value = 0x80090310 ∧
      ErrorKind.TimeSkew.value = 0x80090324) ∧
    (∀ k : ErrorKind, k ≠ ErrorKind.Unknown →
      0x80090300 ≤ k.value ∧ k.value ≤ 0x80090367) := by
  refine ⟨by decide, by decide, ?_⟩
  intro k
  cases k <;> decide

/-- Witness for C7: the range bound applied at the concrete kind
`TimeSkew`. -/
theorem c7_status_and_error_values_witness :
    0x80090300 ≤ ErrorKind.TimeSkew.value ∧
      ErrorKind.TimeSkew.value ≤ 0x80090367 :=
  c7_status_and_error_values.2.2 ErrorKind.TimeSkew (by decide)

/-- Embedding of `SecurityBufferType` from `src/src/sspi.rs`: the kind tag of
a caller-supplied security buffer, one constructor per Rust variant. -/
inductive SecurityBufferType where
  | Empty
  | Data
  | Token
  | TransportToPackageParameters
  | Missing
  | Extra
  | StreamTrailer
  | StreamHeader
  | NegotiationInfo
  | Padding
  | Stream
  | ObjectIdsList
  | ObjectIdsListSignature
  | Target
  | ChannelBindings
  | ChangePasswordResponse
  | TargetHost
  | Alert
  | ApplicationProtocol
  | AttributeMark
  | ReadOnly
  | ReadOnlyWithChecksum
  deriving DecidableEq, Repr

/-- Embedding of `SecurityBuffer` from `src/src/sspi.rs`: a byte payload
tagged with a buffer type; bytes are modelled as natural numbers below 256
(no claim inspects payload contents). -/
structure SecurityBuffer where
  buffer : List Nat
  buffer_type : SecurityBufferType
  deriving DecidableEq, Repr

/-- Embedding of `SecurityBuffer::find_buffer` from `src/src/sspi.rs`:
`buffers.iter().find(|b| b.buffer_type == buffer_type)` followed by
`ok_or_else` building an `InvalidToken` error. -/
def SecurityBuffer.find_buffer (buffers : List SecurityBuffer)
    (buffer_type : SecurityBufferType) : Except Error SecurityBuffer :=
  match buffers.find? (fun b => decide (b.buffer_type = buffer_type)) with
  | some b => .ok b
  | none =>
      .error ⟨ErrorKind.InvalidToken,
        ("No buffer was provided with type ") ++ reprStr buffer_type⟩

/-- Embedding of `SecurityBuffer::find_buffer_mut` from `src/src/sspi.rs`:
`buffers.iter_mut().find(|b| b.buffer_type == buffer_type)` with the same
`InvalidToken` error; the mutable reference returned by the Rust code is
modelled by the index of the slot it points to. -/
def SecurityBuffer.find_buffer_mut :
    List SecurityBuffer → SecurityBufferType → Except Error Nat
  | [], buffer_type =>
      .error ⟨ErrorKind.InvalidToken,
        ("No buffer was provided with type ") ++ reprStr buffer_type⟩
  | b :: rest, buffer_type =>
      if b.buffer_type = buffer_type then .ok 0
      else (SecurityBuffer.find_buffer_mut rest buffer_type).map (· + 1)

/-- Helper: `find_buffer` on a cons whose head does not match reduces to
`find_buffer` on the tail. -/
theorem find_buffer_cons_of_ne (b : SecurityBuffer) (rest : List SecurityBuffer)
    (t : SecurityBufferType) (h : b.buffer_type ≠ t) :
    SecurityBuffer.find_buffer (b :: rest) t = SecurityBuffer.find_buffer rest t := by
  unfold SecurityBuffer.find_buffer
  rw [List.find?_cons_of_neg]
  simp [h]

/-- Helper: `find_buffer` on a cons whose head matches returns the head. -/
theorem find_buffer_cons_of_eq (b : SecurityBuffer) (rest : List SecurityBuffer)
    (t : SecurityBufferType) (h : b.buffer_type = t) :
    SecurityBuffer.find_buffer (b :: rest) t = .ok b := by
  unfold SecurityBuffer.find_buffer
  rw [List.find?_cons_of_pos]
  simp [h]

/-- Helper: `find_buffer_mut` on a cons whose head does not match reduces to
`find_buffer_mut` on the tail with the index shifted by one. -/
theorem find_buffer_mut_cons_of_ne (b : SecurityBuffer) (rest : List SecurityBuffer)
    (t : SecurityBufferType) (h : b.buffer_type ≠ t) :
    SecurityBuffer.find_buffer_mut (b :: rest) t =
      (SecurityBuffer.find_buffer_mut rest t).map (· + 1) := by
  simp only [SecurityBuffer.find_buffer_mut, if_neg h]

/-- Helper: `find_buffer_mut` on a cons whose head matches returns index 0. -/
theorem find_buffer_mut_cons_of_eq (b : SecurityBuffer) (rest : List SecurityBuffer)
    (t : SecurityBufferType) (h : b.buffer_type = t) :
    SecurityBuffer.find_buffer_mut (b :: rest) t = .ok 0 := by
  simp only [SecurityBuffer.find_buffer_mut, if_pos h]

/-- Claim C4: for every buffer array and buffer kind, the lookup operations
`find_buffer` and `find_buffer_mut` return an `Error` with kind
`InvalidToken` exactly when no buffer of that kind is present. -/
theorem c4_find_buffer_invalid_token_iff_absent
    (buffers : List SecurityBuffer) (t : SecurityBufferType) :
    ((∃ e, SecurityBuffer.find_buffer buffers t = .error e ∧
        e.error_type = ErrorKind.InvalidToken) ↔
      ∀ b ∈ buffers, b.buffer_type ≠ t) ∧
    ((∃ e, SecurityBuffer.find_buffer_mut buffers t = .error e ∧
        e.error_type = ErrorKind.InvalidToken) ↔
      ∀ b ∈ buffers, b.buffer_type ≠ t) := by
  induction buffers with
  | nil =>
      refine ⟨⟨fun _ b hb => absurd hb (List.not_mem_nil b), fun _ => ⟨_, rfl, rfl⟩⟩,
        ⟨fun _ b hb => absurd hb (List.not_mem_nil b), fun _ => ⟨_, rfl, rfl⟩⟩⟩
  | cons hd tl ih =>
      by_cases hhd : hd.buffer_type = t
      · constructor
        · constructor
          · intro ⟨e, he, _⟩
            rw [find_buffer_cons_of_eq hd tl t hhd] at he
            cases he
          · intro h
            exact absurd hhd (h hd (List.mem_cons_self hd tl))
        · constructor
          · intro ⟨e, he, _⟩
            rw [find_buffer_mut_cons_of_eq hd tl t hhd] at he
            cases he
          · intro h
            exact absurd hhd (h hd (List.mem_cons_self hd tl))
      · constructor
        · constructor
          · intro ⟨e, he, hkind⟩ b hb
            rcases List.mem_cons.mp hb with hb | hb
            · rw [hb]
              exact hhd
            · rw [find_buffer_cons_of_ne hd tl t hhd] at he
              exact ih.1.mp ⟨e, he, hkind⟩ b hb
          · intro h
            rw [find_buffer_cons_of_ne hd tl t hhd]
            exact ih.1.mpr (fun b hb => h b (List.mem_cons_of_mem hd hb))
        · constructor
          · intro ⟨e, he, hkind⟩ b hb
            rcases List.mem_cons.mp hb with hb | hb
            · rw [hb]
              exact hhd
            · rw [find_buffer_mut_cons_of_ne hd tl t hhd] at he
              cases hmut : SecurityBuffer.find_buffer_mut tl t with
              | ok i =>
                  rw [hmut] at he
                  have hcontra : Except.ok (i + 1) = Except.error e := he
                  cases hcontra
              | error e2 =>
                  rw [hmut] at he
                  have he2 : (Except.error e2 : Except Error Nat) = Except.error e := he
                  cases he2
                  exact ih.2.mp ⟨_, hmut, hkind⟩ b hb
          · intro h
            obtain ⟨e, he, hkind⟩ :=
              ih.2.mpr (fun b hb => h b (List.mem_cons_of_mem hd hb))
            refine ⟨e, ?_, hkind⟩
            rw [find_buffer_mut_cons_of_ne hd tl t hhd, he]
            rfl

/-- Claim C9: for every buffer array containing at least one buffer of the
requested kind, `find_buffer` returns the first buffer in array order whose
kind matches, and `find_buffer_mut` designates the same (first-matching)
slot; the array itself is never modified (the embedding is pure). -/
theorem c9_find_buffer_first_match
    (buffers : List SecurityBuffer) (t : SecurityBufferType)
    (h : ∃ b ∈ buffers, b.buffer_type = t) :
    ∃ i b, buffers[i]? = some b ∧ b.buffer_type = t ∧
      (∀ j, j < i → ∀ c, buffers[j]? = some c → c.buffer_type ≠ t) ∧
      SecurityBuffer.find_buffer buffers t = .ok b ∧
      SecurityBuffer.find_buffer_mut buffers t = .ok i := by
  induction buffers with
  | nil =>
      obtain ⟨b, hb, _⟩ := h
      cases hb
  | cons hd tl ih =>
      by_cases hhd : hd.buffer_type = t
      · refine ⟨0, hd, by simp, hhd, ?_, ?_, ?_⟩
        · intro j hj
          omega
        · exact find_buffer_cons_of_eq hd tl t hhd
        · exact find_buffer_mut_cons_of_eq hd tl t hhd
      · obtain ⟨b0, hb0, hb0t⟩ := h
        rcases List.mem_cons.mp hb0 with hb0 | hb0
        · exact absurd (hb0 ▸ hb0t) hhd
        · obtain ⟨i, b, hget, hbt, hfirst, hfind, hmut⟩ := ih ⟨b0, hb0, hb0t⟩
          refine ⟨i + 1, b, ?_, hbt, ?_, ?_, ?_⟩
          · simpa using hget
          · intro j hj c hc
            cases j with
            | zero =>
                simp only [List.getElem?_cons_zero] at hc
                cases hc
                exact hhd
            | succ j2 =>
                exact hfirst j2 (by omega) c (by simpa using hc)
          · rw [find_buffer_cons_of_ne hd tl t hhd]
            exact hfind
          · rw [find_buffer_mut_cons_of_ne hd tl t hhd, hmut]
            rfl

/-- Witness for C9: lookup of kind `Token` in the concrete array
`[Data, Token, Token]` designates a first matching slot. -/
theorem c9_find_buffer_first_match_witness :
    ∃ i b,
      ([⟨[0], SecurityBufferType.Data⟩, ⟨[1], SecurityBufferType.Token⟩,
        ⟨[2], SecurityBufferType.Token⟩] : List SecurityBuffer)[i]? = some b ∧
      b.buffer_type = SecurityBufferType.Token ∧
      (∀ j, j < i → ∀ c,
        ([⟨[0], SecurityBufferType.Data⟩, ⟨[1], SecurityBufferType.Token⟩,
          ⟨[2], SecurityBufferType.Token⟩] : List SecurityBuffer)[j]? = some c →
        c.buffer_type ≠ SecurityBufferType.Token) ∧
      SecurityBuffer.find_buffer
        [⟨[0], SecurityBufferType.Data⟩, ⟨[1], SecurityBufferType.Token⟩,
          ⟨[2], SecurityBufferType.Token⟩] SecurityBufferType.Token = .ok b ∧
      SecurityBuffer.find_buffer_mut
        [⟨[0], SecurityBufferType.Data⟩, ⟨[1], SecurityBufferType.Token⟩,
          ⟨[2], SecurityBufferType.Token⟩] SecurityBufferType.Token = .ok i :=
  c9_find_buffer_first_match
    [⟨[0], SecurityBufferType.Data⟩, ⟨[1], SecurityBufferType.Token⟩,
      ⟨[2], SecurityBufferType.Token⟩] SecurityBufferType.Token
    ⟨⟨[1], SecurityBufferType.Token⟩, by decide, rfl⟩

/-- Embedding of the hand-coded match in `get_krb_status_from_code` from
`src/src/sspi.rs` as an ordered first-match table: each entry pairs an
error-code byte string (the Rust slice pattern) with its label, in source
order. -/
def krb_status_table : List (List Nat × String) :=
  [([0x0], "KDC_ERR_NONE"),
   ([0x1], "KDC_ERR_NAME_EXP"),
   ([0x2], "KDC_ERR_SERVICE_EXP"),
   ([0x3], "KDC_ERR_BAD_PVNO"),
   ([0x4], "KDC_ERR_C_OLD_MAST_KVNO"),
   ([0x5], "KDC_ERR_S_OLD_MAST_KVNO"),
   ([0x6], "Unrecognised Username - KDC_ERR_C_PRINCIPAL_UNKNOWN"),
   ([0x7], "Unrecognised Server - KDC_ERR_S_PRINCIPAL_UNKNOWN"),
   ([0x8], "KDC_ERR_PRINCIPAL_NOT_UNIQUE"),
   ([0x9], "KDC_ERR_NULL_KEY"),
   ([0xA], "KDC_ERR_CANNOT_POSTDATE"),
   ([0xB], "KDC_ERR_NEVER_VALID"),
   ([0xC], "KDC_ERR_POLICY"),
   ([0xD], "KDC_ERR_BADOPTION"),
   ([0xE], "KDC_ERR_ETYPE_NOTSUPP"),
   ([0xF], "KDC_ERR_SUMTYPE_NOSUPP"),
   ([0x10], "KDC_ERR_PADATA_TYPE_NOSUPP"),
   ([0x11], "KDC_ERR_TRTYPE_NO_SUPP"),
   ([0x12], "KDC_ERR_CLIENT_REVOKED"),
   ([0x13], "KDC_ERR_SERVICE_REVOKED"),
   ([0x14], "KDC_ERR_TGT_REVOKED"),
   ([0x15], "KDC_ERR_CLIENT_NOTYET"),
   ([0x16], "KDC_ERR_SERVICE_NOTYET"),
   ([0x17], "Credentials Expired - KDC_ERR_KEY_EXPIRED"),
   ([0x18], "Incorrect Credentials - KDC_ERR_PREAUTH_FAILED"),
   ([0x19], "KDC_ERR_PREAUTH_REQUIRED"),
   ([0x1A], "KDC_ERR_SERVER_NOMATCH"),
   ([0x1B], "KDC_ERR_SVC_UNAVAILABLE"),
   ([0x1F], "KRB_AP_ERR_BAD_INTEGRITY"),
   ([0x20], "KRB_AP_ERR_TKT_EXPIRED"),
   ([0x21], "KRB_AP_ERR_TKT_NYV"),
   ([0x22], "KRB_AP_ERR_REPEAT"),
   ([0x23], "KRB_AP_ERR_NOT_US"),
   ([0x24], "KRB_AP_ERR_BADMATCH"),
   ([0x25], "KRB_AP_ERR_SKEW"),
   ([0x26], "KRB_AP_ERR_BADADDR"),
   ([0x27], "KRB_AP_ERR_BADVERSION"),
   ([0x28], "KRB_AP_ERR_MSG_TYPE"),
   ([0x29], "KRB_AP_ERR_MODIFIED"),
   ([0x2A], "KRB_AP_ERR_BADORDER"),
   ([0x2C], "KRB_AP_ERR_BADKEYVER"),
   ([0x2D], "KRB_AP_ERR_NOKEY"),
   ([0x2E], "KRB_AP_ERR_MUT_FAIL"),
   ([0x2F], "KRB_AP_ERR_BADDIRECTION"),
   ([0x30], "KRB_AP_ERR_METHOD"),
   ([0x31], "KRB_AP_ERR_BADSEQ"),
   ([0x32], "KRB_AP_ERR_INAPP_CKSUM"),
   ([0x33], "KRB_AP_PATH_NOT_ACCEPTED"),
   ([0x34], "KRB_ERR_RESPONSE_TOO_BIG"),
   ([0x3C], "KRB_ERR_GENERIC"),
   ([0x3D], "KRB_ERR_FIELD_TOOLONG"),
   ([0x3E], "KDC_ERR_CLIENT_NOT_TRUSTED"),
   ([0x3F], "KDC_ERR_KDC_NOT_TRUSTED"),
   ([0x40], "KDC_ERR_INVALID_SIG"),
   ([0x41], "KDC_ERR_KEY_TOO_WEAK"),
   ([0x42], "KRB_AP_ERR_USER_TO_USER_REQUIRED"),
   ([0x43], "KRB_AP_ERR_NO_TGT"),
   ([0x44], "Unrecognised Domain - KDC_ERR_WRONG_REALM")]

/-- Embedding of `get_krb_status_from_code` from `src/src/sspi.rs`: the match
on the error-code byte slice, falling through to the label
`MISSING_ERROR`. -/
def get_krb_status_from_code (error_code : List Nat) : String :=
  match krb_status_table.find? (fun entry => decide (entry.1 = error_code)) with
  | some entry => entry.2
  | none => "MISSING_ERROR"

/-- Embedding of `picky_krb::messages::KrbError` as consumed by
`src/src/sspi.rs`: `error_code` is the error-code integer rendered as its
unsigned big-endian bytes (`as_unsigned_bytes_be`), `message` is the textual
rendering `err.0.to_string()`. -/
structure KrbError where
  error_code : List Nat
  message : String
  deriving DecidableEq, Repr

/-- Embedding of `impl From<KrbError> for Error` from `src/src/sspi.rs`: the
error kind is always `InternalError`; the label from
`get_krb_status_from_code` only decorates the description. -/
def Error.from_krb_error (err : KrbError) : Error :=
  { error_type := ErrorKind.InternalError,
    description :=
      ("Got the krb error: ") ++ get_krb_status_from_code err.error_code ++
        (" (") ++ err.message ++ (")") }

/-- Embedding of `kerberos_crypto::Error` as consumed by
`src/src/sspi.rs`. -/
inductive KerberosCryptoError where
  | DecryptionError (description : String)
  | UnsupportedAlgorithm (alg : Int)
  | InvalidKeyCharset
  | InvalidKeyLength (len : Nat)
  deriving DecidableEq, Repr

/-- Embedding of `impl From<kerberos_crypto::Error> for Error` from
`src/src/sspi.rs`. -/
def Error.from_kerberos_crypto_error : KerberosCryptoError → Error
  | .DecryptionError description =>
      { error_type := ErrorKind.DecryptFailure, description := description }
  | .UnsupportedAlgorithm alg =>
      { error_type := ErrorKind.InternalError,
        description := ("unsupported algorithm: ") ++ toString alg }
  | .InvalidKeyCharset =>
      { error_type := ErrorKind.InternalError,
        description := ("invalid key charset") }
  | .InvalidKeyLength len =>
      { error_type := ErrorKind.InternalError,
        description := ("invalid key len: ") ++ toString len }

/-- Counterexample to claim C1: a KRB-ERROR with error-code 37
(`KRB_AP_ERR_SKEW`) does not convert to an `Error` of kind `TimeSkew` — the
conversion yields `InternalError`. -/
theorem c1_krb_error_code_37_not_time_skew :
    (Error.from_krb_error ⟨[37], "krb error"⟩).error_type =
        ErrorKind.InternalError ∧
      (Error.from_krb_error ⟨[37], "krb error"⟩).error_type ≠
        ErrorKind.TimeSkew := by
  exact ⟨rfl, by decide⟩

/-- Claim C1 (amended): the `From<KrbError>` conversion always produces an
`Error` of kind `InternalError`, whatever the error-code; the per-code
information only appears as a human-readable label in the description
(24 maps to the `KDC_ERR_PREAUTH_FAILED` label, 37 to `KRB_AP_ERR_SKEW`,
6 to the `KDC_ERR_C_PRINCIPAL_UNKNOWN` label and 68 to the
`KDC_ERR_WRONG_REALM` label). -/
theorem c1_krb_error_always_internal_error :
    (∀ err : KrbError,
      (Error.from_krb_error err).error_type = ErrorKind.InternalError) ∧
    get_krb_status_from_code [24] =
      "Incorrect Credentials - KDC_ERR_PREAUTH_FAILED" ∧
    get_krb_status_from_code [37] = "KRB_AP_ERR_SKEW" ∧
    get_krb_status_from_code [6] =
      "Unrecognised Username - KDC_ERR_C_PRINCIPAL_UNKNOWN" ∧
    get_krb_status_from_code [68] =
      "Unrecognised Domain - KDC_ERR_WRONG_REALM" := by
  exact ⟨fun _ => rfl, rfl, rfl, rfl, rfl⟩

/-- Counterexample to claim C3: an unsupported-etype crypto failure does not
convert to kind `AlgorithmMismatch` — the conversion yields
`InternalError`. -/
theorem c3_unsupported_algorithm_not_algorithm_mismatch :
    (Error.from_kerberos_crypto_error
        (KerberosCryptoError.UnsupportedAlgorithm 20)).error_type =
        ErrorKind.InternalError ∧
      (Error.from_kerberos_crypto_error
        (KerberosCryptoError.UnsupportedAlgorithm 20)).error_type ≠
        ErrorKind.AlgorithmMismatch := by
  exact ⟨rfl, by decide⟩

/-- Claim C3 (amended): the conversion of
`kerberos_crypto::Error::UnsupportedAlgorithm` into the SSPI taxonomy yields
kind `InternalError` with a description naming the algorithm. -/
theorem c3_unsupported_algorithm_internal_error :
    ∀ alg : Int,
      Error.from_kerberos_crypto_error
          (KerberosCryptoError.UnsupportedAlgorithm alg) =
        { error_type := ErrorKind.InternalError,
          description := ("unsupported algorithm: ") ++ toString alg } := by
  intro alg
  rfl

/-- Claim C8: every error-code byte string missing from the hand-coded label
table (in particular the omitted codes 0x1C, 0x1D, 0x1E, 0x2B and
0x35 ..= 0x3B) gets the label `MISSING_ERROR`, and any such `KrbError`
converts to an `Error` of kind `InternalError`. -/
theorem c8_missing_krb_codes :
    (∀ code : List Nat, (∀ entry ∈ krb_status_table, entry.1 ≠ code) →
      get_krb_status_from_code code = "MISSING_ERROR" ∧
      ∀ text, (Error.from_krb_error ⟨code, text⟩).error_type =
        ErrorKind.InternalError) ∧
    (∀ b ∈ [0x1C, 0x1D, 0x1E, 0x2B, 0x35, 0x36, 0x37, 0x38, 0x39, 0x3A, 0x3B],
      get_krb_status_from_code [b] = "MISSING_ERROR") := by
  constructor
  · intro code hcode
    constructor
    · unfold get_krb_status_from_code
      rw [List.find?_eq_none.mpr]
      intro entry hentry
      simpa using hcode entry hentry
    · intro _
      rfl
  · decide

/-- Witness for C8: the omitted code 0x1C is not in the table and yields the
`MISSING_ERROR` label and an `InternalError` conversion. -/
theorem c8_missing_krb_codes_witness :
    get_krb_status_from_code [0x1C] = "MISSING_ERROR" ∧
      ∀ text, (Error.from_krb_error ⟨[0x1C], text⟩).error_type =
        ErrorKind.InternalError :=
  c8_missing_krb_codes.1 [0x1C] (by decide)

/-- Embedding of `SecurityPackageType` from `src/src/sspi.rs`: the security
principal in use. -/
inductive SecurityPackageType where
  | Ntlm
  | Kerberos
  | Other (name : String)
  deriving DecidableEq, Repr

/-- Modelled from the spec: the constant `ntlm::PKG_NAME` lives outside the
provided sources; the spec names the package NTLM, so its display name is the
string NTLM. -/
def ntlm.PKG_NAME : String := "NTLM"

/-- Modelled from the spec: the constant `kerberos::PKG_NAME` lives outside
the provided sources; the spec names the package Kerberos, so its display
name is the string Kerberos. -/
def kerberos.PKG_NAME : String := "Kerberos"

/-- Embedding of `impl ToString for SecurityPackageType` from
`src/src/sspi.rs`. -/
def SecurityPackageType.to_string : SecurityPackageType → String
  | .Ntlm => ntlm.PKG_NAME
  | .Kerberos => kerberos.PKG_NAME
  | .Other name => name

/-- Embedding of `impl FromStr for SecurityPackageType` from
`src/src/sspi.rs`: the Rust match on the two package-name constants with a
catch-all producing `Other`; it never returns an error. -/
def SecurityPackageType.from_str (s : String) : Except Error SecurityPackageType :=
  if s = ntlm.PKG_NAME then .ok .Ntlm
  else if s = kerberos.PKG_NAME then .ok .Kerberos
  else .ok (.Other s)

/-- Embedding of `PackageInfo` from `src/src/sspi.rs`: general security
principal information; capabilities are modelled as the raw bit set. -/
structure PackageInfo where
  capabilities : Nat
  rpc_id : Nat
  max_token_len : Nat
  name : SecurityPackageType
  comment : String
  deriving DecidableEq, Repr

/-- Modelled from the spec: the static `ntlm::PACKAGE_INFO` lives outside the
provided sources; only its `name` field (the NTLM package) is fixed by the
spec and consumed by the claims. -/
def ntlm.PACKAGE_INFO : PackageInfo :=
  { capabilities := 0, rpc_id := 0, max_token_len := 0,
    name := SecurityPackageType.Ntlm, comment := ("NTLM security package") }

/-- Modelled from the spec: the static `kerberos::PACKAGE_INFO` lives outside
the provided sources; only its `name` field (the Kerberos package) is fixed
by the spec and consumed by the claims. -/
def kerberos.PACKAGE_INFO : PackageInfo :=
  { capabilities := 0, rpc_id := 0, max_token_len := 0,
    name := SecurityPackageType.Kerberos,
    comment := ("Kerberos security package") }

/-- Modelled from the spec: the static `kerberos::NEGO_PACKAGE_INFO` lives
outside the provided sources; the spec describes it as a Negotiate
descriptor, so its name is `Other "Negotiate"`. -/
def kerberos.NEGO_PACKAGE_INFO : PackageInfo :=
  { capabilities := 0, rpc_id := 0, max_token_len := 0,
    name := SecurityPackageType.Other ("Negotiate"),
    comment := ("Microsoft package negotiator") }

/-- Embedding of `query_security_package_info` from `src/src/sspi.rs`. -/
def query_security_package_info :
    SecurityPackageType → Except Error PackageInfo
  | SecurityPackageType.Ntlm => .ok ntlm.PACKAGE_INFO
  | SecurityPackageType.Kerberos => .ok kerberos.PACKAGE_INFO
  | SecurityPackageType.Other s =>
      .error ⟨ErrorKind.Unknown,
        ("Queried info about unknown package: ") ++ reprStr s⟩

/-- Embedding of `enumerate_security_packages` from `src/src/sspi.rs`: it
returns the Kerberos descriptor and the Negotiate descriptor only. -/
def enumerate_security_packages : Except Error (List PackageInfo) :=
  .ok [kerberos.PACKAGE_INFO, kerberos.NEGO_PACKAGE_INFO]

/-- Claim C5: `enumerate_security_packages` returns exactly two descriptors —
Kerberos and Negotiate — and no NTLM descriptor, while
`query_security_package_info` succeeds for both `Ntlm` and `Kerberos`; hence
the NTLM package reported by the query is absent from the enumeration. -/
theorem c5_enumerate_vs_query :
    (∃ l, enumerate_security_packages = .ok l ∧ l.length = 2 ∧
      l.map PackageInfo.name =
        [SecurityPackageType.Kerberos, SecurityPackageType.Other ("Negotiate")] ∧
      ∀ p ∈ l, p.name ≠ SecurityPackageType.Ntlm) ∧
    (∃ p, query_security_package_info SecurityPackageType.Ntlm = .ok p ∧
      p.name = SecurityPackageType.Ntlm) ∧
    (∃ p, query_security_package_info SecurityPackageType.Kerberos = .ok p ∧
      p.name = SecurityPackageType.Kerberos) ∧
    (∀ l p, enumerate_security_packages = .ok l →
      query_security_package_info SecurityPackageType.Ntlm = .ok p →
      p.name ∉ l.map PackageInfo.name) := by
  refine ⟨⟨[kerberos.PACKAGE_INFO, kerberos.NEGO_PACKAGE_INFO],
      rfl, rfl, rfl, by decide⟩,
    ⟨ntlm.PACKAGE_INFO, rfl, rfl⟩,
    ⟨kerberos.PACKAGE_INFO, rfl, rfl⟩, ?_⟩
  intro l p hl hp
  have hl2 : l = [kerberos.PACKAGE_INFO, kerberos.NEGO_PACKAGE_INFO] := by
    cases hl
    rfl
  have hp2 : p = ntlm.PACKAGE_INFO := by
    cases hp
    rfl
  rw [hl2, hp2]
  decide

/-- Witness for C5: the absence statement applied at the concrete
enumeration list and the concrete NTLM descriptor. -/
theorem c5_enumerate_vs_query_witness :
    ntlm.PACKAGE_INFO.name ∉
      ([kerberos.PACKAGE_INFO, kerberos.NEGO_PACKAGE_INFO].map
        PackageInfo.name) :=
  c5_enumerate_vs_query.2.2.2
    [kerberos.PACKAGE_INFO, kerberos.NEGO_PACKAGE_INFO]
    ntlm.PACKAGE_INFO rfl rfl

/-- Claim C10: `SecurityPackageType` string conversions round-trip: parsing
never fails, the NTLM and Kerberos package names parse to their variants, any
other string parses to `Other`, and `from_str` after `to_string` is the
identity whenever an `Other` name is not one of the two package names. -/
theorem c10_package_type_round_trip :
    (∀ s, ∃ x, SecurityPackageType.from_str s = .ok x) ∧
    SecurityPackageType.from_str ntlm.PKG_NAME = .ok SecurityPackageType.Ntlm ∧
    SecurityPackageType.from_str kerberos.PKG_NAME =
      .ok SecurityPackageType.Kerberos ∧
    (∀ s, s ≠ ntlm.PKG_NAME → s ≠ kerberos.PKG_NAME →
      SecurityPackageType.from_str s = .ok (SecurityPackageType.Other s)) ∧
    (∀ x : SecurityPackageType,
      (∀ n, x = SecurityPackageType.Other n →
        n ≠ ntlm.PKG_NAME ∧ n ≠ kerberos.PKG_NAME) →
      SecurityPackageType.from_str x.to_string = .ok x) := by
  refine ⟨?_, by rfl, by rfl, ?_, ?_⟩
  · intro s
    unfold SecurityPackageType.from_str
    by_cases h1 : s = ntlm.PKG_NAME
    · exact ⟨SecurityPackageType.Ntlm, by rw [if_pos h1]⟩
    · by_cases h2 : s = kerberos.PKG_NAME
      · exact ⟨SecurityPackageType.Kerberos, by rw [if_neg h1, if_pos h2]⟩
      · exact ⟨SecurityPackageType.Other s, by rw [if_neg h1, if_neg h2]⟩
  · intro s h1 h2
    unfold SecurityPackageType.from_str
    rw [if_neg h1, if_neg h2]
  · intro x hx
    cases x with
    | Ntlm => rfl
    | Kerberos => rfl
    | Other n =>
        obtain ⟨h1, h2⟩ := hx n rfl
        show SecurityPackageType.from_str n = .ok (SecurityPackageType.Other n)
        unfold SecurityPackageType.from_str
        rw [if_neg h1, if_neg h2]

/-- Witness for C10: the round trip applied at the concrete package type
`Other "Custom"`, whose name differs from both package names. -/
theorem c10_package_type_round_trip_witness :
    SecurityPackageType.from_str
        (SecurityPackageType.Other ("Custom")).to_string =
      .ok (SecurityPackageType.Other ("Custom")) :=
  c10_package_type_round_trip.2.2.2.2 (SecurityPackageType.Other ("Custom"))
    (fun n h => by cases h; exact ⟨by decide, by decide⟩)

/-- Embedding of `KdcType` from `src/src/sspi/kerberos/config.rs`. -/
inductive KdcType where
  | Kdc
  | KdcProxy
  deriving DecidableEq, Repr

/-- Helper for the URL model: split a character list at the first occurrence
of the three-character separator colon-slash-slash, returning the part before
and after it. -/
def scheme_sep_split : List Char → Option (List Char × List Char)
  | ':' :: '/' :: '/' :: rest => some ([], rest)
  | c :: rest =>
      match scheme_sep_split rest with
      | some (pre, post) => some (c :: pre, post)
      | none => none
  | [] => none

/-- Embedding of the Rust check `kdc_url_env.contains("://")` used in
`KerberosConfig::get_kdc_env` in `src/src/sspi/kerberos/config.rs`. -/
def contains_scheme_sep (s : String) : Bool :=
  (scheme_sep_split s.data).isSome

/-- Model of a parsed URL: the scheme and the remainder after the
scheme separator. -/
structure Url where
  scheme : String
  rest : String
  deriving DecidableEq, Repr

/-- Modelled from the spec: `Url::from_str` of the external `url` crate is not
under src; per the spec the KDC endpoint is a URL whose scheme is taken from
the text before the scheme separator, so parsing splits at the first
separator and fails when there is none or the scheme is empty. -/
def Url.from_str (s : String) : Option Url :=
  match scheme_sep_split s.data with
  | none => none
  | some (pre, post) =>
      if pre = [] then none else some ⟨⟨pre⟩, ⟨post⟩⟩

/-- Embedding of `KerberosConfig::get_kdc_env` from
`src/src/sspi/kerberos/config.rs`. The environment is modelled by the value
of the `SSPI_KDC_URL` variable (`none` when unset); the `expect` on a missing
variable and the `unwrap` on a failed URL parse are modelled as the
`Except.error` (panic) outcomes. -/
def get_kdc_env (env_kdc_url : Option String) : Except String (Url × KdcType) :=
  match env_kdc_url with
  | none => .error ("SSPI_KDC_URL environment variable must be set!")
  | some v =>
      match Url.from_str (if contains_scheme_sep v then v else ("tcp://") ++ v) with
      | none => .error ("called unwrap on an Err value while parsing the KDC URL")
      | some kdc_url =>
          .ok (kdc_url,
            match kdc_url.scheme with
            | "tcp" => KdcType.Kdc
            | "udp" => KdcType.Kdc
            | "http" => KdcType.KdcProxy
            | "https" => KdcType.KdcProxy
            | _ => KdcType.Kdc)

/-- Embedding of `DataRepresentation` from `src/src/sspi.rs`. -/
inductive DataRepresentation where
  | Network
  | Native
  deriving DecidableEq, Repr

/-- Embedding of `AcceptSecurityContextResult` from
`src/src/sspi/builders/accept_sec_context.rs`; response flags are modelled as
the raw bit set and the expiry as an optional timestamp. -/
structure AcceptSecurityContextResult where
  status : SecurityStatus
  flags : Nat
  expiry : Option Nat
  deriving DecidableEq, Repr

/-- Embedding of the `AcceptSecurityContext` builder from
`src/src/sspi/builders/accept_sec_context.rs`: the mutable reference to the
inner SSPI engine is modelled by an optional value of the engine state, the
phantom type-state parameters are erased (they have no runtime content). -/
structure AcceptSecurityContext (Inner CredsHandle : Type) where
  inner : Option Inner
  credentials_handle : Option CredsHandle
  context_requirements : Nat
  target_data_representation : DataRepresentation
  output : List SecurityBuffer
  input : Option (List SecurityBuffer)

/-- Embedding of `AcceptSecurityContext::new`: `inner` is set, every other
field takes its default (empty flags, `Network` representation, empty output,
no input). -/
def AcceptSecurityContext.new {Inner CredsHandle : Type} (i : Inner) :
    AcceptSecurityContext Inner CredsHandle :=
  { inner := some i, credentials_handle := none, context_requirements := 0,
    target_data_representation := DataRepresentation.Network,
    output := [], input := none }

/-- Embedding of `AcceptSecurityContext::with_credentials_handle`. -/
def AcceptSecurityContext.with_credentials_handle
    {Inner CredsHandle : Type} (b : AcceptSecurityContext Inner CredsHandle)
    (c : CredsHandle) : AcceptSecurityContext Inner CredsHandle :=
  { b with credentials_handle := some c }

/-- Embedding of `AcceptSecurityContext::with_context_requirements`. -/
def AcceptSecurityContext.with_context_requirements
    {Inner CredsHandle : Type} (b : AcceptSecurityContext Inner CredsHandle)
    (r : Nat) : AcceptSecurityContext Inner CredsHandle :=
  { b with context_requirements := r }

/-- Embedding of `AcceptSecurityContext::with_target_data_representation`. -/
def AcceptSecurityContext.with_target_data_representation
    {Inner CredsHandle : Type} (b : AcceptSecurityContext Inner CredsHandle)
    (d : DataRepresentation) : AcceptSecurityContext Inner CredsHandle :=
  { b with target_data_representation := d }

/-- Embedding of `AcceptSecurityContext::with_output`. -/
def AcceptSecurityContext.with_output
    {Inner CredsHandle : Type} (b : AcceptSecurityContext Inner CredsHandle)
    (o : List SecurityBuffer) : AcceptSecurityContext Inner CredsHandle :=
  { b with output := o }

/-- Embedding of `AcceptSecurityContext::with_input`. -/
def AcceptSecurityContext.with_input
    {Inner CredsHandle : Type} (b : AcceptSecurityContext Inner CredsHandle)
    (inp : List SecurityBuffer) : AcceptSecurityContext Inner CredsHandle :=
  { b with input := some inp }

/-- Embedding of `FilledAcceptSecurityContext::execute` from
`src/src/sspi/builders/accept_sec_context.rs`:
`self.inner.take().unwrap()` followed by the call into the inner engine. The
`unwrap` panic is the `Except.error` outcome; the engine call is a parameter
receiving the builder (with `inner` taken) and the engine state. -/
def AcceptSecurityContext.execute {Inner CredsHandle : Type}
    (b : AcceptSecurityContext Inner CredsHandle)
    (impl : AcceptSecurityContext Inner CredsHandle → Inner →
      Except Error AcceptSecurityContextResult) :
    Except String (Except Error AcceptSecurityContextResult) :=
  match b.inner with
  | none => .error ("called unwrap on a None value")
  | some i => .ok (impl { b with inner := none } i)

/-- The builders reachable through the public construction path of
`accept_sec_context.rs`: `new` followed by any sequence of the `with_`
setters. -/
inductive AcceptSecurityContext.Reachable {Inner CredsHandle : Type} :
    AcceptSecurityContext Inner CredsHandle → Prop where
  | new (i : Inner) : Reachable (AcceptSecurityContext.new i)
  | with_credentials_handle {b : AcceptSecurityContext Inner CredsHandle}
      (c : CredsHandle) (hb : Reachable b) :
      Reachable (b.with_credentials_handle c)
  | with_context_requirements {b : AcceptSecurityContext Inner CredsHandle}
      (r : Nat) (hb : Reachable b) : Reachable (b.with_context_requirements r)
  | with_target_data_representation
      {b : AcceptSecurityContext Inner CredsHandle}
      (d : DataRepresentation) (hb : Reachable b) :
      Reachable (b.with_target_data_representation d)
  | with_output {b : AcceptSecurityContext Inner CredsHandle}
      (o : List SecurityBuffer) (hb : Reachable b) :
      Reachable (b.with_output o)
  | with_input {b : AcceptSecurityContext Inner CredsHandle}
      (inp : List SecurityBuffer) (hb : Reachable b) :
      Reachable (b.with_input inp)

/-- Helper: every reachable builder still holds its inner engine (no setter
clears it and `new` installs it). -/
theorem reachable_inner_some {Inner CredsHandle : Type}
    {b : AcceptSecurityContext Inner CredsHandle}
    (h : b.Reachable) : ∃ i, b.inner = some i := by
  induction h with
  | new i => exact ⟨i, rfl⟩
  | with_credentials_handle c hb ih => exact ih
  | with_context_requirements r hb ih => exact ih
  | with_target_data_representation d hb ih => exact ih
  | with_output o hb ih => exact ih
  | with_input inp hb ih => exact ih

/-- Helper: `execute` on a builder whose inner engine is present does not
panic and returns the inner call's result. -/
theorem execute_of_inner_some {Inner CredsHandle : Type}
    (b : AcceptSecurityContext Inner CredsHandle)
    (impl : AcceptSecurityContext Inner CredsHandle → Inner →
      Except Error AcceptSecurityContextResult)
    (h : ∃ i, b.inner = some i) :
    ∃ i, b.inner = some i ∧
      b.execute impl = .ok (impl { b with inner := none } i) := by
  obtain ⟨i, hi⟩ := h
  refine ⟨i, hi, ?_⟩
  simp only [AcceptSecurityContext.execute, hi]

/-- Counterexample to claim C2: `KerberosConfig::get_kdc_env` panics (the
`expect` call) when the `SSPI_KDC_URL` environment variable is not set, so
the operation does not always return a status or an `Error`. -/
theorem c2_get_kdc_env_panics_when_env_unset :
    get_kdc_env none =
      .error ("SSPI_KDC_URL environment variable must be set!") := rfl

/-- Claim C2 (amended): `get_kdc_env` returns a value exactly when the
`SSPI_KDC_URL` variable is set to a string whose (scheme-defaulted) text
parses as a URL, and panics otherwise; the builder's `execute` never panics
on any builder constructed through `new` and the setters, returning the inner
engine's result. -/
theorem c2_no_panic_amended :
    (∀ v : Option String, (∃ r, get_kdc_env v = .ok r) ↔
      (∃ s, v = some s ∧ ∃ u,
        Url.from_str (if contains_scheme_sep s then s else ("tcp://") ++ s) =
          some u)) ∧
    (∀ {Inner CredsHandle : Type}
      (b : AcceptSecurityContext Inner CredsHandle)
      (impl : AcceptSecurityContext Inner CredsHandle → Inner →
        Except Error AcceptSecurityContextResult),
      b.Reachable → ∃ i, b.inner = some i ∧
        b.execute impl = .ok (impl { b with inner := none } i)) := by
  constructor
  · intro v
    constructor
    · intro ⟨r, hr⟩
      cases v with
      | none => cases hr
      | some s =>
          refine ⟨s, rfl, ?_⟩
          simp only [get_kdc_env] at hr
          split at hr
          · cases hr
          · exact ⟨_, by assumption⟩
    · intro ⟨s, hv, u, hu⟩
      subst hv
      simp only [get_kdc_env]
      rw [hu]
      exact ⟨_, rfl⟩
  · intro Inner CredsHandle b impl hreach
    exact execute_of_inner_some b impl (reachable_inner_some hreach)

/-- Concrete builder used by the C2 witness: `new` followed by
`with_output`. -/
def sample_accept_builder : AcceptSecurityContext Nat Nat :=
  (AcceptSecurityContext.new 7).with_output []

/-- Concrete inner engine used by the C2 witness: always succeeds with an
`Ok` result. -/
def sample_accept_impl (_b : AcceptSecurityContext Nat Nat) (_i : Nat) :
    Except Error AcceptSecurityContextResult :=
  Except.ok ⟨SecurityStatus.Ok, 0, none⟩

/-- Witness for C2 (amended): a concrete set variable parses and returns, and
`execute` on a concretely constructed builder returns the inner result. -/
theorem c2_no_panic_amended_witness :
    (∃ r, get_kdc_env (some ("tcp://kdc.example")) = .ok r) ∧
    ∃ i, sample_accept_builder.inner = some i ∧
      sample_accept_builder.execute sample_accept_impl =
        .ok (sample_accept_impl
          { sample_accept_builder with inner := none } i) :=
  ⟨(c2_no_panic_amended.1 (some ("tcp://kdc.example"))).mpr
      ⟨"tcp://kdc.example", rfl, ⟨"tcp", "kdc.example"⟩, rfl⟩,
    c2_no_panic_amended.2 sample_accept_builder sample_accept_impl
      (AcceptSecurityContext.Reachable.with_output []
        (AcceptSecurityContext.Reachable.new 7))⟩

/-- Claim C6: for every value of the KDC URL environment variable, a value
without a scheme separator is parsed with the default scheme prefix
prepended, and the resulting KDC type is direct KDC for the tcp and udp
schemes and KDC proxy for the http and https schemes. -/
theorem c6_kdc_url_scheme_mapping (s : String) :
    (contains_scheme_sep s = false →
      ∀ u t, get_kdc_env (some s) = .ok (u, t) →
        Url.from_str (("tcp://") ++ s) = some u) ∧
    (∀ u t, get_kdc_env (some s) = .ok (u, t) →
      ((u.scheme = "tcp" ∨ u.scheme = "udp") → t = KdcType.Kdc) ∧
      ((u.scheme = "http" ∨ u.scheme = "https") → t = KdcType.KdcProxy)) := by
  constructor
  · intro h u t hok
    simp only [get_kdc_env] at hok
    rw [h] at hok
    simp at hok
    split at hok
    · cases hok
    · cases hok
      assumption
  · intro u t hok
    simp only [get_kdc_env] at hok
    split at hok
    · cases hok
    · cases hok
      constructor
      · intro hscheme
        rcases hscheme with h2 | h2 <;> rw [h2] <;> rfl
      · intro hscheme
        rcases hscheme with h2 | h2 <;> rw [h2] <;> rfl

/-- Witness for C6: a scheme-less value gets the default prefix and a
concrete https value maps to the KDC proxy type. -/
theorem c6_kdc_url_scheme_mapping_witness :
    Url.from_str (("tcp://") ++ "kdc.example") =
        some ⟨"tcp", "kdc.example"⟩ ∧
      KdcType.KdcProxy = KdcType.KdcProxy :=
  ⟨(c6_kdc_url_scheme_mapping "kdc.example").1 rfl
      ⟨"tcp", "kdc.example"⟩ KdcType.Kdc rfl,
    ((c6_kdc_url_scheme_mapping "https://gw.example").2
        ⟨"https", "gw.example"⟩ KdcType.KdcProxy rfl).2 (Or.inr rfl)⟩
